import Mathlib

/-!
Verification of the api-bridge dynamic CRUD layer.

This file gives a shallow embedding of the repository's request handlers:

* `src/api_bridge/core.py` (class `APIBridge`)  — embedded in namespace `Core`
* `src/router.py` (class `ApiBridgeRouter`)     — embedded in namespace `RouterV`
* `src/bridge.py` (module-level handlers)       — embedded in namespace `Bridge`

Database tables are modelled as lists of rows (association lists from column
name to scalar value).  SQLAlchemy sessions are modelled by an explicit
transaction state (`Tx`): `execute` acts on the pending state, `commit` is the
single point where the pending state becomes the visible (committed) state,
`rollback` resets the pending state to the committed one, and `Session.close`
releases the connection, which discards (rolls back) an unfinished
transaction.  External effects that cannot be computed from the source (a
statement failing inside the database engine, a connection probe failing) are
injection parameters of the embedded handlers.  `datetime.now()` is passed in
as an integer timestamp parameter.
-/

namespace ApiBridge

/-- Scalar values carried in request payloads and table cells.  The source
passes Python scalars through; timestamps are abstracted as integers. -/
inductive Value where
  | intV (i : Int)
  | strV (s : String)
  | nullV
  deriving DecidableEq, Repr

/-- A row: association list from column name to value (first binding wins,
as in a SQL row where column names are unique). -/
abbrev Row := List (String × Value)

/-- A table: list of rows. -/
abbrev Table := List Row

/-- Read a column of a row. -/
def getField (r : Row) (k : String) : Option Value :=
  (r.find? (fun p => p.1 = k)).map (fun p => p.2)

/-- SQL `SET k = v` on one row: replaces the value at an existing column,
leaves the row unchanged if the column is absent (soft-delete columns are
required to pre-exist by the repository's convention). -/
def setField (r : Row) (k : String) (v : Value) : Row :=
  r.map (fun p => if p.1 = k then (k, v) else p)

/-- Column names of a row. -/
def rowKeys (r : Row) : List String :=
  r.map (fun p => p.1)

/-- The `id` column every participating table is assumed to have. -/
def getId (r : Row) : Option Value :=
  getField r "id"

/-- Apply a payload (`SET k1 = v1, k2 = v2, ...`) to one row. -/
def applyPayload (r : Row) (record : Row) : Row :=
  record.foldl (fun acc kv => setField acc kv.1 kv.2) r

/-- `INSERT`: append a row. -/
def insertRow (tbl : Table) (r : Row) : Table :=
  tbl ++ [r]

/-- `UPDATE ... WHERE id = record_id`: apply the payload to matching rows. -/
def updateWhereId (tbl : Table) (record_id : Int) (record : Row) : Table :=
  tbl.map (fun r => if getId r = some (Value.intV record_id) then applyPayload r record else r)

/-- Number of rows matching `id = record_id` (the `rowcount` the driver
reports for an UPDATE or DELETE with that predicate). -/
def rowcountId (tbl : Table) (record_id : Int) : Nat :=
  (tbl.filter (fun r => getId r = some (Value.intV record_id))).length

/-- `DELETE ... WHERE id = record_id`. -/
def deleteWhereId (tbl : Table) (record_id : Int) : Table :=
  tbl.filter (fun r => ¬ getId r = some (Value.intV record_id))

/-- Pagination metadata dictionary built by every `get_all_records` variant. -/
structure Pagination where
  total_records : Nat
  limit : Nat
  skip : Nat
  total_pages : Nat
  current_page : Nat
  deriving DecidableEq, Repr

/-- `offset = (page - 1) * limit` as computed by the handlers.  `page` and
`limit` are validated `ge=1` by FastAPI's `Query` before the handler runs. -/
def offsetOf (page limit : Nat) : Nat :=
  (page - 1) * limit

/-- `(total_records // limit) + (1 if total_records % limit else 0)`:
Python truthiness of the remainder decides the carry. -/
def total_pages (total_records limit : Nat) : Nat :=
  total_records / limit + (if total_records % limit ≠ 0 then 1 else 0)

/-- The pagination dictionary as assembled in the handlers. -/
def paginationMeta (page limit total_records : Nat) : Pagination :=
  { total_records := total_records
    limit := limit
    skip := offsetOf page limit
    total_pages := total_pages total_records limit
    current_page := page }

/-- Explicit transaction state of one SQLAlchemy session: `committed` is the
database state visible outside the transaction, `pending` the state inside
the open transaction. -/
structure Tx where
  committed : Table
  pending : Table
  deriving DecidableEq, Repr

/-- Opening a session over database state `db`. -/
def Tx.start (db : Table) : Tx :=
  ⟨db, db⟩

/-- `session.execute(stmt)`: acts on the pending state only. -/
def Tx.exec (t : Tx) (f : Table → Table) : Tx :=
  { t with pending := f t.pending }

/-- `session.commit()`: the single point at which effects become visible. -/
def Tx.commit (t : Tx) : Tx :=
  { t with committed := t.pending }

/-- `session.rollback()`: discard the pending changes. -/
def Tx.rollback (t : Tx) : Tx :=
  { t with pending := t.committed }

/-- `session.close()` (also the exit of a `with Session() as session:` block):
the connection is released and an unfinished transaction is discarded. -/
def Tx.close (t : Tx) : Tx :=
  t.rollback

/-- Result of one request handler, as shaped by the source. -/
inductive Outcome where
  | okMsg (message : String)
  | okRows (data : List Row) (pagination : Pagination)
  | okSoftDelete (message : String) (deleted_at : Int) (deleted_by : Int)
  | httpError (status : Nat) (detail : String)
  deriving DecidableEq, Repr

/-- A statement as handed to `session.execute`: SQL text plus the separately
bound parameter map. -/
structure SqlStmt where
  text : String
  params : List (String × Value)
  deriving DecidableEq, Repr

/-- Exceptions distinguished by the handlers: FastAPI's `HTTPException`
(whose `str()` is "status: detail") and any other database-layer error. -/
inductive Exc where
  | http (status : Nat) (detail : String)
  | db (msg : String)
  deriving DecidableEq, Repr

/-- Python `str(e)` for the exceptions above. -/
def Exc.toStr : Exc → String
  | Exc.http s d => toString s ++ ": " ++ d
  | Exc.db m => m

/-- Session lifecycle events, for the pool-discipline claims. -/
inductive SessEvent where
  | acquire
  | close
  deriving DecidableEq, Repr

/-- Sessions still held after a handler finished: acquisitions minus closes. -/
def sessionsLeftOpen (tr : List SessEvent) : Int :=
  (tr.count SessEvent.acquire : Int) - (tr.count SessEvent.close : Int)

/-- The soft-delete column writes of `soft_delete_record`:
`SET active = 0, deleted = 1, deleted_by_guid = :guid, deleted_at = :now`. -/
def softDeleteRow (r : Row) (guid now : Int) : Row :=
  setField (setField (setField (setField r "active" (Value.intV 0))
    "deleted" (Value.intV 1)) "deleted_by_guid" (Value.intV guid)) "deleted_at" (Value.intV now)

/-- The soft-delete UPDATE restricted to `WHERE id = record_id`. -/
def softDeleteWhereId (tbl : Table) (record_id guid now : Int) : Table :=
  tbl.map (fun r => if getId r = some (Value.intV record_id) then softDeleteRow r guid now else r)

/-! ## `src/api_bridge/core.py` — class `APIBridge` -/

namespace Core

/-- One entry of the `db_configs` mapping handed to `APIBridge.__init__`.
`reachable` abstracts the outcome of the `SELECT 1` probe that
`_get_db_connection` runs against the external server. -/
structure DbConfig where
  dialect : String
  database : String
  reachable : Bool
  deriving DecidableEq, Repr

/-- A successfully created engine, remembering its configuration. -/
structure Engine where
  cfg : DbConfig
  deriving DecidableEq, Repr

/-- `APIBridge._get_db_connection`: rejects a dialect outside the `SERVERS`
map with a `ValueError`, then probes the server; every failure is re-raised
wrapped as `Database connection failed: ...`. -/
def get_db_connection (cfg : DbConfig) : Except String Engine :=
  if cfg.dialect ∉ ["postgresql", "mysql"] then
    Except.error ("Database connection failed: " ++ cfg.dialect ++
      " is an invalid or missing server type for '" ++ cfg.database ++ "'.")
  else if ¬ cfg.reachable then
    Except.error "Database connection failed: connection refused"
  else
    Except.ok ⟨cfg⟩

/-- `APIBridge._setup_connections`: the dict comprehension
`{name: self._get_db_connection(**config) for name, config in ...}` evaluates
the entries in order and the first raised exception aborts the whole
comprehension (and `__init__`). -/
def setup_connections : List (String × DbConfig) → Except String (List (String × Engine))
  | [] => Except.ok []
  | (name, cfg) :: rest =>
    match get_db_connection cfg with
    | Except.error e => Except.error e
    | Except.ok eng =>
      match setup_connections rest with
      | Except.error e => Except.error e
      | Except.ok l => Except.ok ((name, eng) :: l)

/-- The engines the bridge ends up holding: when `_setup_connections` raises,
the assignment to `self.engines` never happens and it keeps its initial `{}`. -/
def registeredEngines (configs : List (String × DbConfig)) : List (String × Engine) :=
  match setup_connections configs with
  | Except.ok l => l
  | Except.error _ => []

/-- `APIBridge.test_db_connection`: the body (the `engines.get` lookup, the
404 raise, and the probe) runs inside `try:`; `except Exception as e:`
re-raises everything — the `HTTPException(404, ...)` included — as
`HTTPException(500, str(e))`. -/
def test_db_connection (engines : List String) (probeOk : Bool) (db_name : String) : Outcome :=
  let body : Except Exc String :=
    if db_name ∈ engines then
      if probeOk then
        Except.ok ("Database " ++ db_name ++ " connection successful")
      else
        Except.error (Exc.db "probe failed")
    else
      Except.error (Exc.http 404 ("Database " ++ db_name ++ " not found"))
  match body with
  | Except.ok m => Outcome.okMsg m
  | Except.error e => Outcome.httpError 500 (Exc.toStr e)

/-- `APIBridge.get_all_records`: `_get_table_and_columns` runs before the
`try:` block, so its `HTTPException(400, "Invalid table name: ...")`
propagates unwrapped and nothing is executed; otherwise the paginated SELECT
and the COUNT run and the response is shaped from them.  The second
component lists the statements handed to `session.execute`. -/
def get_all_records (catalog : List String) (tbl : Table) (table_name : String)
    (page limit : Nat) : Outcome × List SqlStmt :=
  if table_name ∉ catalog then
    (Outcome.httpError 400 ("Invalid table name: " ++ table_name), [])
  else
    let off := offsetOf page limit
    let rows := (tbl.drop off).take limit
    let pagination := paginationMeta page limit tbl.length
    (Outcome.okRows rows pagination,
      [⟨"SELECT * FROM " ++ table_name ++ " LIMIT :limit OFFSET :offset",
          [("limit", Value.intV (limit : Int)), ("offset", Value.intV (off : Int))]⟩,
       ⟨"SELECT count(*) FROM " ++ table_name, []⟩])

/-- `APIBridge.create_record`.  `_get_table_and_columns` is called inside the
`try:` here, so its 400 is swallowed by `except Exception` and resurfaces as
a 500.  `fail = some pend` injects an execution error that left the pending
transaction state at `pend`; the `with` block then closes the session
(discarding the unfinished transaction) before the 500 is raised. -/
def create_record (catalog : List String) (table_name db_name : String)
    (tbl : Table) (record : Row) (fail : Option Table) : Outcome × Table :=
  if table_name ∉ catalog then
    (Outcome.httpError 500 ("Error inserting record: " ++
        Exc.toStr (Exc.http 400 ("Invalid table name: " ++ table_name))), tbl)
  else
    match fail with
    | some pend =>
        let t := Tx.close { Tx.start tbl with pending := pend }
        (Outcome.httpError 500 "Error inserting record: database error", t.committed)
    | none =>
        let t := ((Tx.start tbl).exec (fun p => insertRow p record)).commit
        (Outcome.okMsg ("Record added to " ++ table_name ++ " in " ++ db_name),
         t.close.committed)

/-- `APIBridge.update_record`: executes and commits the UPDATE and returns the
success message; the affected-row count is never consulted. -/
def update_record (catalog : List String) (table_name db_name : String)
    (tbl : Table) (record_id : Int) (record : Row) (fail : Option Table) : Outcome × Table :=
  if table_name ∉ catalog then
    (Outcome.httpError 500 ("Error updating record: " ++
        Exc.toStr (Exc.http 400 ("Invalid table name: " ++ table_name))), tbl)
  else
    match fail with
    | some pend =>
        let t := Tx.close { Tx.start tbl with pending := pend }
        (Outcome.httpError 500 "Error updating record: database error", t.committed)
    | none =>
        let t := ((Tx.start tbl).exec (fun p => updateWhereId p record_id record)).commit
        (Outcome.okMsg ("Record " ++ toString record_id ++ " updated in " ++
            table_name ++ " in " ++ db_name),
         t.close.committed)

/-- `APIBridge.patch_record`: like update but checks `result.rowcount` after
the commit; the 404 it raises is caught by `except Exception` and re-raised
as a 500 wrapping `str(e)`. -/
def patch_record (catalog : List String) (table_name db_name : String)
    (tbl : Table) (record_id : Int) (record : Row) (fail : Option Table) : Outcome × Table :=
  if table_name ∉ catalog then
    (Outcome.httpError 500 ("Error patching record: " ++
        Exc.toStr (Exc.http 400 ("Invalid table name: " ++ table_name))), tbl)
  else
    match fail with
    | some pend =>
        let t := Tx.close { Tx.start tbl with pending := pend }
        (Outcome.httpError 500 "Error patching record: database error", t.committed)
    | none =>
        let t := ((Tx.start tbl).exec (fun p => updateWhereId p record_id record)).commit
        if rowcountId tbl record_id = 0 then
          (Outcome.httpError 500 ("Error patching record: " ++
              Exc.toStr (Exc.http 404 ("Record " ++ toString record_id ++
                " not found in " ++ table_name))),
           t.close.committed)
        else
          (Outcome.okMsg ("Record " ++ toString record_id ++ " patched in " ++ table_name),
           t.close.committed)

/-- `APIBridge.soft_delete_record`: the soft-delete UPDATE with the
`rowcount` check (whose 404 is, as in patch, re-wrapped as a 500); on
success the response carries the deletion timestamp and actor. -/
def soft_delete_record (catalog : List String) (table_name db_name : String)
    (tbl : Table) (record_id guid now : Int) (fail : Option Table) : Outcome × Table :=
  if table_name ∉ catalog then
    (Outcome.httpError 500 ("Error soft deleting record: " ++
        Exc.toStr (Exc.http 400 ("Invalid table name: " ++ table_name))), tbl)
  else
    match fail with
    | some pend =>
        let t := Tx.close { Tx.start tbl with pending := pend }
        (Outcome.httpError 500 "Error soft deleting record: database error", t.committed)
    | none =>
        let t := ((Tx.start tbl).exec (fun p => softDeleteWhereId p record_id guid now)).commit
        if rowcountId tbl record_id = 0 then
          (Outcome.httpError 500 ("Error soft deleting record: " ++
              Exc.toStr (Exc.http 404 ("Record " ++ toString record_id ++
                " not found in " ++ table_name))),
           t.close.committed)
        else
          (Outcome.okSoftDelete ("Record " ++ toString record_id ++
              " soft deleted from " ++ table_name) now guid,
           t.close.committed)

/-- `APIBridge.delete_record` (hard delete): DELETE by id with the
`rowcount` check (404 again re-wrapped as a 500 by the catch-all). -/
def delete_record (catalog : List String) (table_name db_name : String)
    (tbl : Table) (record_id : Int) (fail : Option Table) : Outcome × Table :=
  if table_name ∉ catalog then
    (Outcome.httpError 500 ("Error deleting record: " ++
        Exc.toStr (Exc.http 400 ("Invalid table name: " ++ table_name))), tbl)
  else
    match fail with
    | some pend =>
        let t := Tx.close { Tx.start tbl with pending := pend }
        (Outcome.httpError 500 "Error deleting record: database error", t.committed)
    | none =>
        let t := ((Tx.start tbl).exec (fun p => deleteWhereId p record_id)).commit
        if rowcountId tbl record_id = 0 then
          (Outcome.httpError 500 ("Error deleting record: " ++
              Exc.toStr (Exc.http 404 ("Record " ++ toString record_id ++
                " not found in " ++ table_name))),
           t.close.committed)
        else
          (Outcome.okMsg ("Record " ++ toString record_id ++ " deleted from " ++
              table_name ++ " in " ++ db_name),
           t.close.committed)

end Core

/-! ## `src/router.py` — class `ApiBridgeRouter` -/

namespace RouterV

/-- The f-string `f"SELECT * FROM {table_name} LIMIT :limit OFFSET :offset"`:
the table name is interpolated into the SQL text; the two values are
placeholders. -/
def selectSQL (table_name : String) : String :=
  "SELECT * FROM " ++ table_name ++ " LIMIT :limit OFFSET :offset"

/-- The f-string `f"SELECT COUNT(*) FROM {table_name}"`. -/
def countSQL (table_name : String) : String :=
  "SELECT COUNT(*) FROM " ++ table_name

/-- The f-string
`f"INSERT INTO {table_name} ({columns}) VALUES ({placeholders})"` where
`columns` joins the payload keys and `placeholders` their `:key` forms. -/
def insertSQL (table_name : String) (keys : List String) : String :=
  "INSERT INTO " ++ table_name ++ " (" ++ String.intercalate ", " keys ++
    ") VALUES (" ++ String.intercalate ", " (keys.map (fun k => ":" ++ k)) ++ ")"

/-- `ApiBridgeRouter.get_all_records`: no catalog check precedes the query —
the SELECT interpolating the caller's table name is handed to
`session.execute` unconditionally, and only the database itself rejects a
nonexistent table (surfaced as a 500).  Components: outcome, statements sent
to the database, session lifecycle events (this handler has a
`finally: session.close()`). -/
def get_all_records (catalog : List String) (tbl : Table) (table_name : String)
    (page limit : Nat) : Outcome × List SqlStmt × List SessEvent :=
  let off := offsetOf page limit
  let sel : SqlStmt := ⟨selectSQL table_name,
    [("limit", Value.intV (limit : Int)), ("offset", Value.intV (off : Int))]⟩
  if table_name ∉ catalog then
    (Outcome.httpError 500 "Error reading table: table does not exist",
     [sel], [SessEvent.acquire, SessEvent.close])
  else
    (Outcome.okRows ((tbl.drop off).take limit) (paginationMeta page limit tbl.length),
     [sel, ⟨countSQL table_name, []⟩], [SessEvent.acquire, SessEvent.close])

/-- `ApiBridgeRouter.create_record`: the INSERT is built from the payload
keys without consulting the catalog and sent to the database; an unknown
column is rejected only by the database engine, and the handler rolls back
and re-raises a 500.  `columns` is the target table's live column list. -/
def create_record (columns : List String) (table_name : String) (record : Row) :
    Outcome × List SqlStmt :=
  let keys := rowKeys record
  let stmt : SqlStmt := ⟨insertSQL table_name keys, record⟩
  if ∀ k ∈ keys, k ∈ columns then
    (Outcome.okMsg ("Record added to " ++ table_name), [stmt])
  else
    (Outcome.httpError 500 "Error inserting record: unknown column", [stmt])

/-- `ApiBridgeRouter.update_record`: UPDATE, commit, then the `rowcount`
check; its 404 is re-raised intact by the dedicated `except HTTPException`
clause (after a rollback that is a no-op post-commit).  An execution error
(`fail = some pend`) is rolled back and surfaced as a 500;
`finally: session.close()` runs on every path. -/
def update_record (tbl : Table) (table_name : String) (record_id : Int)
    (record : Row) (fail : Option Table) : Outcome × Table :=
  match fail with
  | some pend =>
      let t := (Tx.rollback { Tx.start tbl with pending := pend }).close
      (Outcome.httpError 500 "Error updating record: database error", t.committed)
  | none =>
      let t := ((Tx.start tbl).exec (fun p => updateWhereId p record_id record)).commit
      if rowcountId tbl record_id = 0 then
        (Outcome.httpError 404 ("Record " ++ toString record_id ++ " not found in " ++
            table_name),
         t.rollback.close.committed)
      else
        (Outcome.okMsg ("Record " ++ toString record_id ++ " updated in " ++ table_name),
         t.close.committed)

end RouterV

/-! ## `src/bridge.py` — module-level handlers -/

namespace Bridge

/-- `bridge.get_all_records`: acquires `session = Session()` and has neither
a `finally:` nor any `session.close()` call — the session is left open on
the success return and on the error raise alike.  `dbOk` abstracts whether
the database accepts the two queries (e.g. whether the table exists). -/
def get_all_records (tbl : Table) (page limit : Nat) (dbOk : Bool) :
    Outcome × List SessEvent :=
  let off := offsetOf page limit
  if dbOk then
    (Outcome.okRows ((tbl.drop off).take limit) (paginationMeta page limit tbl.length),
     [SessEvent.acquire])
  else
    (Outcome.httpError 500 "Error reading table: database error", [SessEvent.acquire])

/-- `bridge.create_record`: try execute + commit, `except` rollback + 500,
`finally` close. -/
def create_record (tbl : Table) (table_name : String) (record : Row)
    (fail : Option Table) : Outcome × Table :=
  match fail with
  | some pend =>
      let t := (Tx.rollback { Tx.start tbl with pending := pend }).close
      (Outcome.httpError 500 "Error inserting record: database error", t.committed)
  | none =>
      let t := ((Tx.start tbl).exec (fun p => insertRow p record)).commit
      (Outcome.okMsg ("Record added to " ++ table_name), t.close.committed)

/-- `bridge.update_record`: executes and commits the UPDATE and returns the
success message — `result.rowcount` is never consulted. -/
def update_record (tbl : Table) (table_name : String) (record_id : Int)
    (record : Row) (fail : Option Table) : Outcome × Table :=
  match fail with
  | some pend =>
      let t := (Tx.rollback { Tx.start tbl with pending := pend }).close
      (Outcome.httpError 500 "Error updating record: database error", t.committed)
  | none =>
      let t := ((Tx.start tbl).exec (fun p => updateWhereId p record_id record)).commit
      (Outcome.okMsg ("Record " ++ toString record_id ++ " updated in " ++ table_name),
       t.close.committed)

/-- `bridge.soft_delete_record`: soft-delete UPDATE with the `rowcount`
check; this module has no `except HTTPException` clause, so the raised 404
is caught by `except Exception`, rolled back (a no-op post-commit) and
re-raised as a 500 wrapping `str(e)`. -/
def soft_delete_record (tbl : Table) (table_name : String) (record_id guid now : Int)
    (fail : Option Table) : Outcome × Table :=
  match fail with
  | some pend =>
      let t := (Tx.rollback { Tx.start tbl with pending := pend }).close
      (Outcome.httpError 500 "Error soft deleting record: database error", t.committed)
  | none =>
      let t := ((Tx.start tbl).exec (fun p => softDeleteWhereId p record_id guid now)).commit
      if rowcountId tbl record_id = 0 then
        (Outcome.httpError 500 ("Error soft deleting record: " ++
            Exc.toStr (Exc.http 404 ("Record " ++ toString record_id ++
              " not found in " ++ table_name))),
         t.rollback.close.committed)
      else
        (Outcome.okSoftDelete ("Record " ++ toString record_id ++
            " soft deleted from " ++ table_name) now guid,
         t.close.committed)

/-- `bridge.delete_record` (hard delete): executes and commits the DELETE
and returns the success message — `result.rowcount` is never consulted. -/
def delete_record (tbl : Table) (table_name : String) (record_id : Int)
    (fail : Option Table) : Outcome × Table :=
  match fail with
  | some pend =>
      let t := (Tx.rollback { Tx.start tbl with pending := pend }).close
      (Outcome.httpError 500 "Error deleting record: database error", t.committed)
  | none =>
      let t := ((Tx.start tbl).exec (fun p => deleteWhereId p record_id)).commit
      (Outcome.okMsg ("Record " ++ toString record_id ++ " deleted from " ++ table_name),
       t.close.committed)

/-- `bridge.patch_record`: like update but with the `rowcount` check, whose
404 is (as in soft delete) re-wrapped as a 500 by the catch-all. -/
def patch_record (tbl : Table) (table_name : String) (record_id : Int)
    (record : Row) (fail : Option Table) : Outcome × Table :=
  match fail with
  | some pend =>
      let t := (Tx.rollback { Tx.start tbl with pending := pend }).close
      (Outcome.httpError 500 "Error patching record: database error", t.committed)
  | none =>
      let t := ((Tx.start tbl).exec (fun p => updateWhereId p record_id record)).commit
      if rowcountId tbl record_id = 0 then
        (Outcome.httpError 500 ("Error patching record: " ++
            Exc.toStr (Exc.http 404 ("Record " ++ toString record_id ++
              " not found in " ++ table_name))),
         t.rollback.close.committed)
      else
        (Outcome.okMsg ("Record " ++ toString record_id ++ " patched in " ++ table_name),
         t.close.committed)

end Bridge

/-! ## Concrete data used in counterexamples and witnesses -/

/-- A two-row `users` table (ids 1 and 2) with the reserved soft-delete
columns present. -/
def sampleTable : Table :=
  [[("id", Value.intV 1), ("name", Value.strV "alice"), ("active", Value.intV 1),
    ("deleted", Value.intV 0), ("deleted_by_guid", Value.intV 0), ("deleted_at", Value.intV 0)],
   [("id", Value.intV 2), ("name", Value.strV "bob"), ("active", Value.intV 1),
    ("deleted", Value.intV 0), ("deleted_by_guid", Value.intV 0), ("deleted_at", Value.intV 0)]]

/-- A configuration whose connection succeeds. -/
def goodCfg : Core.DbConfig :=
  ⟨"mysql", "database1", true⟩

/-- A configuration whose connection probe fails. -/
def badCfg : Core.DbConfig :=
  ⟨"mysql", "database2", false⟩

/-! ## Claims -/

/-- Claim C1.  The claim says every update/patch/soft-delete/hard-delete on a
nonexistent id yields `NotFoundError` (404).  The code contradicts it:
`APIBridge.update_record` (`src/api_bridge/core.py`) never consults the
affected-row count and returns its success message after committing the
zero-row UPDATE, and `bridge.delete_record` (`src/bridge.py`) does the same
for the hard delete — a silently-succeeding empty response on id 999999,
with the table left unchanged. -/
theorem C1_nonexistent_id_silent_success :
    Core.update_record ["users"] "users" "db1" sampleTable 999999
        [("name", Value.strV "x")] none =
      (Outcome.okMsg "Record 999999 updated in users in db1", sampleTable) ∧
    Bridge.delete_record sampleTable "users" 999999 none =
      (Outcome.okMsg "Record 999999 deleted from users", sampleTable) := by
  constructor <;> rfl

/-- Claim C2 (counterexample).  The claim says a payload with an unknown
column yields `UnknownColumnError` and no statement is sent to the database.
On the code, `create_record` (`src/router.py`) builds the INSERT from the
payload keys without any catalog check and hands it to `session.execute`:
for the unknown column `bogus` the statement list is nonempty and the
outcome is a wrapped 500, so the claim is false. -/
theorem C2_unknown_column_cex :
    "bogus" ∉ ["id", "name"] ∧
    (RouterV.create_record ["id", "name"] "users" [("bogus", Value.intV 1)]).2 =
      [⟨"INSERT INTO users (bogus) VALUES (:bogus)", [("bogus", Value.intV 1)]⟩] ∧
    (RouterV.create_record ["id", "name"] "users" [("bogus", Value.intV 1)]).2 ≠ [] ∧
    (RouterV.create_record ["id", "name"] "users" [("bogus", Value.intV 1)]).1 =
      Outcome.httpError 500 "Error inserting record: unknown column" := by
  refine ⟨by decide, rfl, by decide, rfl⟩

/-- Claim C3 (counterexample).  The claim says a caller-supplied table name
is interpolated into SQL text only after its existence is confirmed in the
catalog.  `get_all_records` (`src/router.py`) performs no such check: for a
table name absent from the catalog (here one carrying an injection payload),
the SELECT interpolating it verbatim is still handed to `session.execute`. -/
theorem C3_unvalidated_table_name_cex :
    "users; DROP TABLE users" ∉ ["users"] ∧
    (RouterV.get_all_records ["users"] sampleTable "users; DROP TABLE users" 1 10).2.1 =
      [⟨"SELECT * FROM users; DROP TABLE users LIMIT :limit OFFSET :offset",
        [("limit", Value.intV 10), ("offset", Value.intV 0)]⟩] := by
  refine ⟨by decide, rfl⟩

/-- Claim C6 (counterexample).  The claim says a startup connection failure
for one database leaves the other configured databases registered and
usable.  On the code, `_setup_connections` builds `self.engines` with a dict
comprehension: the failure for `db2` aborts the comprehension, the exception
escapes `__init__`, and `db1` — whose connection succeeds in isolation — is
not registered either. -/
theorem C6_partial_failure_cex :
    Core.get_db_connection goodCfg = Except.ok ⟨goodCfg⟩ ∧
    Core.registeredEngines [("db1", goodCfg)] = [("db1", ⟨goodCfg⟩)] ∧
    Core.setup_connections [("db1", goodCfg), ("db2", badCfg)] =
      Except.error "Database connection failed: connection refused" ∧
    Core.registeredEngines [("db1", goodCfg), ("db2", badCfg)] = [] := by
  refine ⟨rfl, rfl, rfl, rfl⟩

/-- Claim C7.  The claim says an unregistered logical database name yields
`NotFoundError` (404), in particular from `test_db_connection`.  The code
raises `HTTPException(404, ...)` inside the `try:` block of
`APIBridge.test_db_connection`, but the catch-all `except Exception` traps
it and re-raises `HTTPException(500, str(e))`: the caller observes a server
error whose detail merely quotes the 404 message. -/
theorem C7_unknown_db_surfaces_as_500 :
    Core.test_db_connection ["db1"] true "nope" =
      Outcome.httpError 500 "404: Database nope not found" ∧
    (∀ d : String, Core.test_db_connection ["db1"] true "nope" ≠ Outcome.httpError 404 d) := by
  refine ⟨rfl, fun d h => ?_⟩
  rw [show Core.test_db_connection ["db1"] true "nope" =
    Outcome.httpError 500 "404: Database nope not found" from rfl] at h
  injection h with h1 h2
  exact absurd h1 (by decide)

/-- Claim C8.  The claim says every handler that checks out a session closes
it on every exit path.  `get_all_records` in `src/bridge.py` acquires
`session = Session()` and has no `finally:` and no `session.close()` at all:
on the successful return (shown here on a two-row table) and on the error
path alike, the handler finishes with its session still checked out. -/
theorem C8_session_never_closed :
    (Bridge.get_all_records sampleTable 1 10 true).1 =
      Outcome.okRows sampleTable (paginationMeta 1 10 2) ∧
    (Bridge.get_all_records sampleTable 1 10 true).2 = [SessEvent.acquire] ∧
    sessionsLeftOpen (Bridge.get_all_records sampleTable 1 10 true).2 = 1 ∧
    (Bridge.get_all_records sampleTable 1 10 false).2 = [SessEvent.acquire] ∧
    sessionsLeftOpen (Bridge.get_all_records sampleTable 1 10 false).2 = 1 := by
  refine ⟨rfl, rfl, rfl, rfl, rfl⟩

/-- Claim C5.  Every mutating handler of the three modules, when its
`execute` raises before `commit` — leaving the pending transaction state at
an arbitrary partially-applied `pend` — surfaces the error only after the
session's transaction has been discarded: the visible (committed) database
state equals the initial `tbl` in every case.  In `bridge.py` and
`router.py` this is the explicit `except: session.rollback()`; in `core.py`
it is the `with` block closing the session before the `except` re-raises. -/
theorem C5_rollback_before_commit (catalog : List String) (table_name db_name : String)
    (tbl pend : Table) (record : Row) (record_id guid now : Int) :
    (Bridge.create_record tbl table_name record (some pend)).2 = tbl ∧
    (Bridge.update_record tbl table_name record_id record (some pend)).2 = tbl ∧
    (Bridge.soft_delete_record tbl table_name record_id guid now (some pend)).2 = tbl ∧
    (Bridge.delete_record tbl table_name record_id (some pend)).2 = tbl ∧
    (Bridge.patch_record tbl table_name record_id record (some pend)).2 = tbl ∧
    (RouterV.update_record tbl table_name record_id record (some pend)).2 = tbl ∧
    (Core.create_record catalog table_name db_name tbl record (some pend)).2 = tbl ∧
    (Core.update_record catalog table_name db_name tbl record_id record (some pend)).2 = tbl ∧
    (Core.patch_record catalog table_name db_name tbl record_id record (some pend)).2 = tbl ∧
    (Core.soft_delete_record catalog table_name db_name tbl record_id guid now
        (some pend)).2 = tbl ∧
    (Core.delete_record catalog table_name db_name tbl record_id (some pend)).2 = tbl := by
  refine ⟨rfl, rfl, rfl, rfl, rfl, rfl, ?_, ?_, ?_, ?_, ?_⟩ <;>
    · simp only [Core.create_record, Core.update_record, Core.patch_record,
        Core.soft_delete_record, Core.delete_record]
      split <;> rfl

/-- Helper for claim C6: the dict comprehension of `_setup_connections`
aborts with an error as soon as any configured database fails to connect. -/
theorem setup_connections_error_of_failure (configs : List (String × Core.DbConfig))
    (p : String × Core.DbConfig) (hp : p ∈ configs) (e : String)
    (he : Core.get_db_connection p.2 = Except.error e) :
    ∃ e2, Core.setup_connections configs = Except.error e2 := by
  induction configs with
  | nil => cases hp
  | cons hd rest ih =>
    obtain ⟨n, c⟩ := hd
    rcases List.mem_cons.mp hp with h | hmem
    · subst h
      exact ⟨e, by simp [Core.setup_connections, he]⟩
    · cases hok : Core.get_db_connection c with
      | error e2 => exact ⟨e2, by simp [Core.setup_connections, hok]⟩
      | ok eng =>
        obtain ⟨e2, h2⟩ := ih hmem
        exact ⟨e2, by simp [Core.setup_connections, hok, h2]⟩

/-- Claim C6 (amended).  A connection failure at startup for any one of the
configured databases is fatal to the whole bridge, not to that database
only: `_setup_connections` propagates the exception out of `__init__` and no
database is registered — including those whose own connections succeed. -/
theorem C6_startup_failure_is_global (configs : List (String × Core.DbConfig))
    (h : ∃ p ∈ configs, ∃ e, Core.get_db_connection p.2 = Except.error e) :
    (∃ e2, Core.setup_connections configs = Except.error e2) ∧
    Core.registeredEngines configs = [] := by
  obtain ⟨p, hp, e, he⟩ := h
  obtain ⟨e2, h2⟩ := setup_connections_error_of_failure configs p hp e he
  exact ⟨⟨e2, h2⟩, by simp [Core.registeredEngines, h2]⟩

/-- Claim C6 (amended) at a concrete input: `db2` fails to connect, the
setup aborts and nothing — `db1` included — is registered. -/
theorem C6_startup_failure_is_global_witness :
    (∃ e2, Core.setup_connections [("db1", goodCfg), ("db2", badCfg)] = Except.error e2) ∧
    Core.registeredEngines [("db1", goodCfg), ("db2", badCfg)] = [] :=
  C6_startup_failure_is_global [("db1", goodCfg), ("db2", badCfg)]
    ⟨("db2", badCfg), by simp,
      "Database connection failed: connection refused", rfl⟩

/-- Claim C2 (amended).  A payload referencing a column absent from the
table's catalog is not screened by the handler: `create_record`
(`src/router.py`) always builds the INSERT from the payload keys and sends
exactly that statement to the database; when some key is not a real column
the database rejects it and the handler surfaces a wrapped 500 execution
error — there is no `UnknownColumnError` and the statement is not withheld. -/
theorem C2_unknown_column_sent_then_500 (columns : List String) (table_name : String)
    (record : Row) (h : ∃ k ∈ rowKeys record, k ∉ columns) :
    (RouterV.create_record columns table_name record).2 =
      [⟨RouterV.insertSQL table_name (rowKeys record), record⟩] ∧
    (RouterV.create_record columns table_name record).1 =
      Outcome.httpError 500 "Error inserting record: unknown column" := by
  obtain ⟨k, hk, hnc⟩ := h
  have hall : ¬ ∀ k2 ∈ rowKeys record, k2 ∈ columns := fun hall => hnc (hall k hk)
  simp only [RouterV.create_record]
  rw [if_neg hall]
  exact ⟨rfl, rfl⟩

/-- Claim C2 (amended) at a concrete input: the `bogus` column is unknown,
the INSERT naming it is sent, and the outcome is a 500. -/
theorem C2_unknown_column_sent_then_500_witness :
    (RouterV.create_record ["id", "name"] "users" [("bogus", Value.intV 1)]).2 =
      [⟨RouterV.insertSQL "users" (rowKeys [("bogus", Value.intV 1)]),
        [("bogus", Value.intV 1)]⟩] ∧
    (RouterV.create_record ["id", "name"] "users" [("bogus", Value.intV 1)]).1 =
      Outcome.httpError 500 "Error inserting record: unknown column" :=
  C2_unknown_column_sent_then_500 ["id", "name"] "users" [("bogus", Value.intV 1)]
    ⟨"bogus", by decide, by decide⟩

/-- Claim C3 (amended).  Only `APIBridge` (`src/api_bridge/core.py`)
validates the caller-supplied table name against the reflected catalog
before building SQL — an unknown table yields an immediate 400 and nothing
is handed to the database.  The text-SQL variant (`src/router.py`)
interpolates the table name into the SELECT without that check and always
sends the statement; caller-supplied values are never part of the SQL text —
for every `page` and `limit` the text is exactly `selectSQL table_name`,
with the values riding in the separate bound-parameter map. -/
theorem C3_table_name_validation_split (catalog : List String) (tbl : Table)
    (table_name : String) (page limit : Nat) (h : table_name ∉ catalog) :
    Core.get_all_records catalog tbl table_name page limit =
      (Outcome.httpError 400 ("Invalid table name: " ++ table_name), []) ∧
    ∃ rest, (RouterV.get_all_records catalog tbl table_name page limit).2.1 =
      ⟨RouterV.selectSQL table_name,
        [("limit", Value.intV (limit : Int)),
         ("offset", Value.intV (offsetOf page limit : Int))]⟩ :: rest := by
  constructor
  · simp only [Core.get_all_records]
    rw [if_pos h]
  · by_cases hc : table_name ∈ catalog
    · refine ⟨[⟨RouterV.countSQL table_name, []⟩], ?_⟩
      simp only [RouterV.get_all_records]
      rw [if_neg (not_not_intro hc)]
    · refine ⟨[], ?_⟩
      simp only [RouterV.get_all_records]
      rw [if_pos hc]

/-- Claim C3 (amended) at a concrete input: the unknown table name is
rejected with a 400 by the core variant (no statement built), while the
router variant still sends the interpolated SELECT with the values bound
as parameters. -/
theorem C3_table_name_validation_split_witness :
    Core.get_all_records ["users"] sampleTable "users; DROP TABLE users" 1 10 =
      (Outcome.httpError 400 "Invalid table name: users; DROP TABLE users", []) ∧
    ∃ rest, (RouterV.get_all_records ["users"] sampleTable "users; DROP TABLE users" 1 10).2.1 =
      ⟨RouterV.selectSQL "users; DROP TABLE users",
        [("limit", Value.intV (10 : Int)),
         ("offset", Value.intV (offsetOf 1 10 : Int))]⟩ :: rest :=
  C3_table_name_validation_split ["users"] sampleTable "users; DROP TABLE users" 1 10
    (by decide)

/-- Helper for claim C4: bounds pinning `total_pages * limit` against
`total_records`. -/
theorem total_pages_mul_bounds (t l : Nat) (hl : 1 ≤ l) :
    t ≤ total_pages t l * l ∧ total_pages t l * l < t + l := by
  have hlt : t % l < l := Nat.mod_lt _ (by omega)
  have hmod : l * (t / l) + t % l = t := Nat.div_add_mod t l
  unfold total_pages
  generalize t / l = q at hmod ⊢
  generalize t % l = r at hlt hmod ⊢
  by_cases h0 : r = 0
  · subst h0
    simp only [ne_eq, not_true_eq_false, if_false, Nat.add_zero]
    constructor
    · nlinarith
    · nlinarith
  · simp only [ne_eq, h0, not_false_eq_true, if_true]
    constructor
    · nlinarith [Nat.pos_of_ne_zero h0]
    · nlinarith [Nat.pos_of_ne_zero h0]

/-- Helper for claim C4: the floor-division-plus-carry formula of the
handlers equals the rational ceiling of `total_records / limit`. -/
theorem total_pages_eq_ceil (t l : Nat) (hl : 1 ≤ l) :
    (total_pages t l : ℤ) = ⌈(t : ℚ) / (l : ℚ)⌉ := by
  obtain ⟨hA, hB⟩ := total_pages_mul_bounds t l hl
  have hl0 : (0 : ℚ) < (l : ℚ) := by exact_mod_cast hl
  symm
  rw [Int.ceil_eq_iff]
  constructor
  · rw [lt_div_iff hl0]
    have hBq : ((total_pages t l : ℚ)) * (l : ℚ) < (t : ℚ) + (l : ℚ) := by
      exact_mod_cast hB
    push_cast
    nlinarith
  · rw [div_le_iff hl0]
    push_cast
    exact_mod_cast hA

/-- Claim C4.  For `page ≥ 1`, `limit ≥ 1` and a table of any size, the List
handler returns pagination metadata whose `skip` is `(page-1)*limit` and
whose `total_pages` is the ceiling of `total_records / limit` (the code's
floor division plus a carry on a nonzero remainder); in particular 25
records at limit 10 give 3 pages and 20 records give 2. -/
theorem C4_pagination_meta (catalog : List String) (tbl : Table) (table_name : String)
    (page limit : Nat) (hcat : table_name ∈ catalog) (hp : 1 ≤ page) (hl : 1 ≤ limit) :
    (Core.get_all_records catalog tbl table_name page limit).1 =
      Outcome.okRows ((tbl.drop (offsetOf page limit)).take limit)
        (paginationMeta page limit tbl.length) ∧
    (paginationMeta page limit tbl.length).skip = (page - 1) * limit ∧
    (paginationMeta page limit tbl.length).current_page = page ∧
    ((paginationMeta page limit tbl.length).total_pages : ℤ) =
      ⌈(tbl.length : ℚ) / (limit : ℚ)⌉ ∧
    total_pages 25 10 = 3 ∧ total_pages 20 10 = 2 := by
  refine ⟨?_, rfl, rfl, total_pages_eq_ceil _ _ hl, by decide, by decide⟩
  simp only [Core.get_all_records]
  rw [if_neg (not_not_intro hcat)]

/-- Claim C4 at a concrete input (page 1, limit 10, two records). -/
theorem C4_pagination_meta_witness :
    (Core.get_all_records ["users"] sampleTable "users" 1 10).1 =
      Outcome.okRows ((sampleTable.drop (offsetOf 1 10)).take 10)
        (paginationMeta 1 10 sampleTable.length) ∧
    (paginationMeta 1 10 sampleTable.length).skip = (1 - 1) * 10 ∧
    (paginationMeta 1 10 sampleTable.length).current_page = 1 ∧
    ((paginationMeta 1 10 sampleTable.length).total_pages : ℤ) =
      ⌈(sampleTable.length : ℚ) / ((10 : ℕ) : ℚ)⌉ ∧
    total_pages 25 10 = 3 ∧ total_pages 20 10 = 2 :=
  C4_pagination_meta ["users"] sampleTable "users" 1 10 (by decide) (by decide) (by decide)

/-- Claim C10.  Listing an empty table with any `page ≥ 1`, `limit ≥ 1`
returns empty data and `total_pages = 0` (not 1), so the response's
`current_page` strictly exceeds its `total_pages`. -/
theorem C10_empty_table_pagination (catalog : List String) (table_name : String)
    (page limit : Nat) (hcat : table_name ∈ catalog) (hp : 1 ≤ page) (hl : 1 ≤ limit) :
    (Core.get_all_records catalog ([] : Table) table_name page limit).1 =
      Outcome.okRows [] (paginationMeta page limit 0) ∧
    (paginationMeta page limit 0).total_pages = 0 ∧
    (paginationMeta page limit 0).total_pages < (paginationMeta page limit 0).current_page := by
  have h0 : total_pages 0 limit = 0 := by
    unfold total_pages
    simp
  refine ⟨?_, h0, ?_⟩
  · simp only [Core.get_all_records]
    rw [if_neg (not_not_intro hcat)]
    simp
  · simpa [paginationMeta, h0] using hp

/-- Claim C10 at a concrete input (page 3, limit 7, empty table). -/
theorem C10_empty_table_pagination_witness :
    (Core.get_all_records ["users"] ([] : Table) "users" 3 7).1 =
      Outcome.okRows [] (paginationMeta 3 7 0) ∧
    (paginationMeta 3 7 0).total_pages = 0 ∧
    (paginationMeta 3 7 0).total_pages < (paginationMeta 3 7 0).current_page :=
  C10_empty_table_pagination ["users"] "users" 3 7 (by decide) (by decide) (by decide)

/-- Helper: `setField` preserves the column set of a row. -/
theorem rowKeys_setField (r : Row) (k : String) (v : Value) :
    rowKeys (setField r k v) = rowKeys r := by
  unfold rowKeys setField
  rw [List.map_map]
  apply List.map_congr_left
  intro p _
  by_cases h : p.1 = k
  · simp [h]
  · simp [h]

/-- Helper: `getField` on a nonempty row checks the head first. -/
theorem getField_cons (q : String × Value) (tl : List (String × Value)) (k : String) :
    getField (q :: tl) k = if q.1 = k then some q.2 else getField tl k := by
  by_cases hq : q.1 = k
  · simp [getField, List.find?_cons_of_pos, hq]
  · simp [getField, List.find?_cons_of_neg, hq]

/-- Helper: `setField` on a nonempty row rewrites the head if it matches. -/
theorem setField_cons (q : String × Value) (tl : List (String × Value)) (k : String)
    (v : Value) :
    setField (q :: tl) k v = (if q.1 = k then (k, v) else q) :: setField tl k v := rfl

/-- Helper: writing an existing column makes it readable back. -/
theorem getField_setField_self (r : Row) (k : String) (v : Value) (h : k ∈ rowKeys r) :
    getField (setField r k v) k = some v := by
  induction r with
  | nil => cases h
  | cons p tl ih =>
    rw [setField_cons, getField_cons]
    by_cases hp : p.1 = k
    · simp only [if_pos hp]
      simp
    · have hmem : k ∈ rowKeys tl := by
        rcases List.mem_cons.mp (show k ∈ p.1 :: rowKeys tl from h) with h1 | h2
        · exact absurd h1.symm hp
        · exact h2
      simp only [if_neg hp]
      exact ih hmem

/-- Helper: writing one column leaves the others unchanged. -/
theorem getField_setField_ne (r : Row) (k k2 : String) (v : Value) (h : k2 ≠ k) :
    getField (setField r k v) k2 = getField r k2 := by
  induction r with
  | nil => rfl
  | cons p tl ih =>
    rw [setField_cons, getField_cons, getField_cons]
    by_cases hp : p.1 = k
    · simp only [if_pos hp]
      rw [if_neg (show ¬ ((k, v).1 = k2) from fun he => h he.symm),
          if_neg (show ¬ (p.1 = k2) from fun he => h (hp.symm.trans he).symm)]
      exact ih
    · simp only [if_neg hp]
      by_cases hq : p.1 = k2
      · rw [if_pos hq, if_pos hq]
      · rw [if_neg hq, if_neg hq]
        exact ih

/-- Helper: the soft-delete write does not touch the `id` column. -/
theorem getId_softDeleteRow (r : Row) (guid now : Int) :
    getId (softDeleteRow r guid now) = getId r := by
  unfold getId softDeleteRow
  rw [getField_setField_ne _ _ _ _ (by decide), getField_setField_ne _ _ _ _ (by decide),
      getField_setField_ne _ _ _ _ (by decide), getField_setField_ne _ _ _ _ (by decide)]

/-- Helper: on a row carrying the reserved columns, the soft-delete write
leaves `active = 0`, `deleted = 1`, `deleted_by_guid = guid`,
`deleted_at = now`. -/
theorem softDeleteRow_getField (r : Row) (guid now : Int) :
    ("active" ∈ rowKeys r →
      getField (softDeleteRow r guid now) "active" = some (Value.intV 0)) ∧
    ("deleted" ∈ rowKeys r →
      getField (softDeleteRow r guid now) "deleted" = some (Value.intV 1)) ∧
    ("deleted_by_guid" ∈ rowKeys r →
      getField (softDeleteRow r guid now) "deleted_by_guid" = some (Value.intV guid)) ∧
    ("deleted_at" ∈ rowKeys r →
      getField (softDeleteRow r guid now) "deleted_at" = some (Value.intV now)) := by
  unfold softDeleteRow
  refine ⟨fun h => ?_, fun h => ?_, fun h => ?_, fun h => ?_⟩
  · rw [getField_setField_ne _ _ _ _ (by decide), getField_setField_ne _ _ _ _ (by decide),
        getField_setField_ne _ _ _ _ (by decide)]
    exact getField_setField_self _ _ _ h
  · rw [getField_setField_ne _ _ _ _ (by decide), getField_setField_ne _ _ _ _ (by decide)]
    exact getField_setField_self _ _ _ (by rwa [rowKeys_setField])
  · rw [getField_setField_ne _ _ _ _ (by decide)]
    exact getField_setField_self _ _ _ (by rwa [rowKeys_setField, rowKeys_setField])
  · exact getField_setField_self _ _ _
      (by rwa [rowKeys_setField, rowKeys_setField, rowKeys_setField])

/-- Helper: a table containing a row with the given id has nonzero
`rowcount` for the `WHERE id = record_id` predicate. -/
theorem rowcountId_pos_of_mem (tbl : Table) (record_id : Int)
    (hex : ∃ r ∈ tbl, getId r = some (Value.intV record_id)) :
    rowcountId tbl record_id ≠ 0 := by
  obtain ⟨r, hr, hid⟩ := hex
  intro h0
  have hmem : r ∈ tbl.filter (fun r => getId r = some (Value.intV record_id)) :=
    List.mem_filter.mpr ⟨hr, by simp [hid]⟩
  simp only [rowcountId, List.length_eq_zero] at h0
  rw [h0] at hmem
  cases hmem

/-- Helper: the soft-delete UPDATE keeps the matching row present (with its
id intact), so a later id-match still finds it. -/
theorem softDeleteWhereId_keeps_row (tbl : Table) (record_id guid now : Int)
    (hex : ∃ r ∈ tbl, getId r = some (Value.intV record_id)) :
    ∃ r2 ∈ softDeleteWhereId tbl record_id guid now,
      getId r2 = some (Value.intV record_id) := by
  obtain ⟨r, hr, hid⟩ := hex
  refine ⟨softDeleteRow r guid now, ?_, ?_⟩
  · have := List.mem_map_of_mem
      (fun r => if getId r = some (Value.intV record_id) then softDeleteRow r guid now else r) hr
    simpa [softDeleteWhereId, hid] using this
  · rw [getId_softDeleteRow]
    exact hid

/-- Claim C9.  Soft-deleting an existing id performs the UPDATE setting
`active = 0`, `deleted = 1`, `deleted_by_guid` to the supplied value and
`deleted_at` to the current time; the response carries that same actor and
timestamp; and the row is not removed — the subsequent hard delete on the
same id still matches it and succeeds. -/
theorem C9_soft_delete_semantics (catalog : List String) (table_name db_name : String)
    (tbl : Table) (record_id guid now : Int) (hcat : table_name ∈ catalog)
    (hex : ∃ r ∈ tbl, getId r = some (Value.intV record_id)) :
    Core.soft_delete_record catalog table_name db_name tbl record_id guid now none =
      (Outcome.okSoftDelete ("Record " ++ toString record_id ++ " soft deleted from " ++
          table_name) now guid,
        softDeleteWhereId tbl record_id guid now) ∧
    (∀ r ∈ tbl, getId r = some (Value.intV record_id) →
      softDeleteRow r guid now ∈ softDeleteWhereId tbl record_id guid now ∧
      getId (softDeleteRow r guid now) = some (Value.intV record_id) ∧
      ("active" ∈ rowKeys r →
        getField (softDeleteRow r guid now) "active" = some (Value.intV 0)) ∧
      ("deleted" ∈ rowKeys r →
        getField (softDeleteRow r guid now) "deleted" = some (Value.intV 1)) ∧
      ("deleted_by_guid" ∈ rowKeys r →
        getField (softDeleteRow r guid now) "deleted_by_guid" = some (Value.intV guid)) ∧
      ("deleted_at" ∈ rowKeys r →
        getField (softDeleteRow r guid now) "deleted_at" = some (Value.intV now))) ∧
    (Core.delete_record catalog table_name db_name
        (softDeleteWhereId tbl record_id guid now) record_id none).1 =
      Outcome.okMsg ("Record " ++ toString record_id ++ " deleted from " ++
        table_name ++ " in " ++ db_name) := by
  refine ⟨?_, ?_, ?_⟩
  · simp only [Core.soft_delete_record]
    rw [if_neg (not_not_intro hcat), if_neg (rowcountId_pos_of_mem tbl record_id hex)]
    rfl
  · intro r hr hid
    obtain ⟨h1, h2, h3, h4⟩ := softDeleteRow_getField r guid now
    refine ⟨?_, ?_, h1, h2, h3, h4⟩
    · have := List.mem_map_of_mem
        (fun r => if getId r = some (Value.intV record_id) then softDeleteRow r guid now else r) hr
      simpa [softDeleteWhereId, hid] using this
    · rw [getId_softDeleteRow]
      exact hid
  · simp only [Core.delete_record]
    rw [if_neg (not_not_intro hcat),
      if_neg (rowcountId_pos_of_mem _ record_id
        (softDeleteWhereId_keeps_row tbl record_id guid now hex))]

/-- Claim C9 at a concrete input: soft-deleting id 1 of the two-row table
with `deleted_by_guid = 42` at time 1700000000. -/
theorem C9_soft_delete_semantics_witness :
    Core.soft_delete_record ["users"] "users" "db1" sampleTable 1 42 1700000000 none =
      (Outcome.okSoftDelete ("Record " ++ toString (1 : Int) ++ " soft deleted from " ++
          "users") 1700000000 42,
        softDeleteWhereId sampleTable 1 42 1700000000) ∧
    (∀ r ∈ sampleTable, getId r = some (Value.intV 1) →
      softDeleteRow r 42 1700000000 ∈ softDeleteWhereId sampleTable 1 42 1700000000 ∧
      getId (softDeleteRow r 42 1700000000) = some (Value.intV 1) ∧
      ("active" ∈ rowKeys r →
        getField (softDeleteRow r 42 1700000000) "active" = some (Value.intV 0)) ∧
      ("deleted" ∈ rowKeys r →
        getField (softDeleteRow r 42 1700000000) "deleted" = some (Value.intV 1)) ∧
      ("deleted_by_guid" ∈ rowKeys r →
        getField (softDeleteRow r 42 1700000000) "deleted_by_guid" = some (Value.intV 42)) ∧
      ("deleted_at" ∈ rowKeys r →
        getField (softDeleteRow r 42 1700000000) "deleted_at" = some (Value.intV 1700000000))) ∧
    (Core.delete_record ["users"] "users" "db1"
        (softDeleteWhereId sampleTable 1 42 1700000000) 1 none).1 =
      Outcome.okMsg ("Record " ++ toString (1 : Int) ++ " deleted from " ++
        "users" ++ " in " ++ "db1") :=
  C9_soft_delete_semantics ["users"] "users" "db1" sampleTable 1 42 1700000000
    (by decide) ⟨sampleTable.head (by decide), by decide, by decide⟩

end ApiBridge
